import Mathlib

/-!
Verification of the conversational legal-assistant workflow engine.

Shallow embedding of the routing logic, assistance sub-workflow nodes,
human-approval node and chat-manager dispatch of the repository, together
with theorems settling the specification claims about them.

String helpers mirror the Python primitives used by the source
(`str.lower`, `str.strip`, the `in` substring test, `str.split(kw, 1)`),
restricted to the character sets the program actually uses.
-/

/-- Lowercasing of a single character as Python `str.lower` behaves on the
ASCII letters and on the accented capitals that occur in the code base. -/
def pyCharLower (c : Char) : Char :=
  if c = 'É' then 'é'
  else if c = 'È' then 'è'
  else if c = 'Ê' then 'ê'
  else if c = 'Ë' then 'ë'
  else if c = 'À' then 'à'
  else if c = 'Â' then 'â'
  else if c = 'Ä' then 'ä'
  else if c = 'Ç' then 'ç'
  else if c = 'Î' then 'î'
  else if c = 'Ï' then 'ï'
  else if c = 'Ô' then 'ô'
  else if c = 'Ö' then 'ö'
  else if c = 'Ù' then 'ù'
  else if c = 'Û' then 'û'
  else if c = 'Ü' then 'ü'
  else c.toLower

/-- Python `str.lower`. -/
def pyLower (s : String) : String := ⟨s.data.map pyCharLower⟩

/-- Whitespace characters removed by Python `str.strip()`. -/
def isSpaceChar (c : Char) : Bool :=
  c = ' ' || c = '\t' || c = '\n' || c = '\r'

/-- Python `str.strip()`: drop whitespace from both ends. -/
def pyStrip (s : String) : String :=
  ⟨((s.data.dropWhile isSpaceChar).reverse.dropWhile isSpaceChar).reverse⟩

/-- Does the first character list start with the second one? -/
def leadsWith : List Char → List Char → Bool
  | _, [] => true
  | [], _ :: _ => false
  | a :: as, b :: bs => a == b && leadsWith as bs

/-- Does the first character list contain the second one as a contiguous
run? -/
def hasSub : List Char → List Char → Bool
  | [], nd => nd.isEmpty
  | a :: t, nd => leadsWith (a :: t) nd || hasSub t nd

/-- Python substring test `needle in hay`. -/
def pyIn (needle hay : String) : Bool := hasSub hay.data needle.data

/-- The characters after the first occurrence of `kw`, as in Python
`s.split(kw, 1)[1]`; `none` when `kw` does not occur. -/
def splitAfter : List Char → List Char → Option (List Char)
  | [], kw => if kw.isEmpty then some [] else none
  | a :: t, kw =>
    if leadsWith (a :: t) kw then some ((a :: t).drop kw.length)
    else splitAfter t kw

/-- Python truthiness of an optional string: `None` and `""` are falsy. -/
def truthyOpt : Option String → Bool
  | none => false
  | some s => !s.isEmpty

/-- Rendering of an optional string inside a Python f-string (`None`
prints as the text `None`). -/
def optStr : Option String → String
  | none => "None"
  | some s => s

/-- Python `x or default` for an optional string (falsy → default). -/
def orDefault (o : Option String) (d : String) : String :=
  match o with
  | none => d
  | some v => if v.isEmpty then d else v

/-- One conversation message, as the dict
`{role: ..., content: ..., meta: {...}}` used throughout the code. -/
structure Msg where
  role : String
  content : String
  meta : List (String × String) := []
deriving DecidableEq

/-- The fields of `MultiCountryLegalState` (models/state_models.py) that
the verified components read or write.  `detected_country` stands for
`legal_context["detected_country"]`. -/
structure LegalState where
  messages : List Msg := []
  user_email : Option String := none
  assistance_description : Option String := none
  assistance_step : Option String := none
  assistance_requested : Bool := false
  approval_status : Option String := none
  approval_reason : Option String := none
  approved_by : Option String := none
  approval_timestamp : Option String := none
  email_status : Option String := none
  country : Option String := none
  detected_country : String := "unknown"
  last_search_query : Option String := none
deriving DecidableEq

/-- A state delta as returned by a node: absent (`none`) fields are left
untouched by the merge, present fields overwrite, and `messages` is
append-only (the `operator.add` annotation on `messages`). -/
structure StateUpdate where
  messages : List Msg := []
  user_email : Option String := none
  assistance_description : Option String := none
  assistance_step : Option String := none
  assistance_requested : Option Bool := none
  approval_status : Option String := none
  approval_reason : Option String := none
  approved_by : Option String := none
  approval_timestamp : Option String := none
  email_status : Option String := none
  country : Option String := none
  detected_country : Option String := none
deriving DecidableEq

/-- The engine merge of a node delta into the state: `messages` appends
(`operator.add`), every other field is overwritten when the delta carries
it and kept otherwise. -/
def applyUpdate (s : LegalState) (u : StateUpdate) : LegalState :=
  { messages := s.messages ++ u.messages
    user_email := u.user_email.or s.user_email
    assistance_description := u.assistance_description.or s.assistance_description
    assistance_step := u.assistance_step.or s.assistance_step
    assistance_requested := u.assistance_requested.getD s.assistance_requested
    approval_status := u.approval_status.or s.approval_status
    approval_reason := u.approval_reason.or s.approval_reason
    approved_by := u.approved_by.or s.approved_by
    approval_timestamp := u.approval_timestamp.or s.approval_timestamp
    email_status := u.email_status.or s.email_status
    country := u.country.or s.country
    detected_country := u.detected_country.getD s.detected_country
    last_search_query := s.last_search_query }

/-- Content of the last message of the list regardless of role, `""` when
there is none: Python `s.get("messages", [{}])[-1].get("content", "")`
guarded by `if s.get("messages") else ""`. -/
def lastContent (msgs : List Msg) : String :=
  match msgs.getLast? with
  | none => ""
  | some m => m.content

/-- The last message content, lowered and stripped, as read by
`confirm_assistance_send_node`. -/
def lastInputLowered (msgs : List Msg) : String :=
  match msgs.getLast? with
  | none => ""
  | some m => pyStrip (pyLower m.content)

/-- Content of the last message whose role is `user` or `human`, `""`
when there is none: `RoutingLogic._get_last_user_message`. -/
def get_last_user_message (msgs : List Msg) : String :=
  match msgs.reverse.find? (fun m => m.role == "user" || m.role == "human") with
  | some m => m.content
  | none => ""

/-- Benin keyword list of `MultiCountryLegalState.detect_country`. -/
def benin_keywords : List String :=
  ["bénin", "benin", "béninois", "béninoise",
   "cotonou", "porto-novo", "porto novo",
   "dahomey"]

/-- Madagascar keyword list of `MultiCountryLegalState.detect_country`. -/
def madagascar_keywords : List String :=
  ["madagascar", "malgache", "malagasy",
   "antananarivo", "tananarive", "tana",
   "toamasina", "tamatave"]

/-- Number of Benin keywords occurring in the lowered text:
`sum(1 for keyword in benin_keywords if keyword in text_lower)`. -/
def benin_score (t : String) : Nat :=
  benin_keywords.countP (fun kw => pyIn kw (pyLower t))

/-- Number of Madagascar keywords occurring in the lowered text. -/
def madagascar_score (t : String) : Nat :=
  madagascar_keywords.countP (fun kw => pyIn kw (pyLower t))

/-- `MultiCountryLegalState.detect_country` (models/state_models.py):
empty text → `"unknown"`; otherwise the country whose keyword score is
strictly larger than the other and strictly positive, else `"unknown"`. -/
def detect_country (t : String) : String :=
  if t = "" then "unknown"
  else if benin_score t > madagascar_score t ∧ benin_score t > 0 then "benin"
  else if madagascar_score t > benin_score t ∧ madagascar_score t > 0 then "madagascar"
  else "unknown"


/-- Characters of the local part class `[a-zA-Z0-9._%+-]` of
`AssistanceWorkflowNodes.email_pattern`. -/
def isEmailLocalChar (c : Char) : Bool :=
  c.isAlphanum || c = '.' || c = '_' || c = '%' || c = '+' || c = '-'

/-- Characters of the domain class `[a-zA-Z0-9.-]` of the pattern. -/
def isEmailDomainChar (c : Char) : Bool :=
  c.isAlphanum || c = '.' || c = '-'

/-- Does the character list decompose as `B+ '.' alpha{2,}` for the tail
of the email pattern? -/
def emailTailOk (l : List Char) : Bool :=
  (List.range l.length).any (fun i =>
    match l.drop i with
    | '.' :: c =>
      !(l.take i).isEmpty && (l.take i).all isEmailDomainChar
        && c.all Char.isAlpha && decide (2 ≤ c.length)
    | _ => false)

/-- `re.match` of `^[a-zA-Z0-9._%+-]+@[a-zA-Z0-9.-]+\.[a-zA-Z]{2,}$` on
the full input.  `$` also matches just before one trailing newline, so a
single final `'\n'` is dropped first. -/
def email_pattern_match (s : String) : Bool :=
  let l := if s.data.getLast? = some '\n' then s.data.dropLast else s.data
  let loc := l.takeWhile (fun c => c ≠ '@')
  match l.dropWhile (fun c => c ≠ '@') with
  | '@' :: rest => !loc.isEmpty && loc.all isEmailLocalChar && emailTailOk rest
  | _ => false


/-- Text of the invalid-email re-prompt of
`collect_assistance_info_node`. -/
def invalidEmailText : String :=
  "⚠️ L\x27adresse email fournie semble invalide. Veuillez fournir une adresse email valide.\n\n📧 **Veuillez me fournir votre adresse email :**"

/-- `AssistanceWorkflowNodes.collect_assistance_info_node`
(core/assistance/workflow_nodes.py): reads the step and the content of
the latest message and returns the state delta of the source function.
`model_dump` keeps a `None` step as `None`, so the `s.get` default never
fires and an unset step falls through to the empty delta. -/
def collect_assistance_info_node (s : LegalState) : StateUpdate :=
  let user_input := lastContent s.messages
  if s.assistance_step = some "collecting_email" then
    if user_input = "" then
      { assistance_step := some "collecting_email" }
    else if email_pattern_match user_input then
      { assistance_step := some "collecting_description"
        user_email := some user_input
        assistance_requested := some true }
    else
      { assistance_step := some "collecting_email"
        messages := [⟨"assistant", invalidEmailText,
                      [("assistance_step", "collecting_email")]⟩] }
  else if s.assistance_step = some "collecting_description" then
    if user_input = "" ∨ (pyStrip user_input).length < 10 then
      { assistance_step := some "collecting_description" }
    else
      { assistance_description := some user_input
        assistance_step := some "confirming_send"
        country := some (detect_country user_input)
        detected_country := some (detect_country user_input) }
  else
    {}

/-- Text of the cancellation message of `confirm_assistance_send_node`. -/
def cancelText : String :=
  "❌ Votre demande a été annulée.\n\nSi vous changez d\x27avis, vous pouvez relancer une demande en disant \"Je veux parler à un avocat\"."

/-- Text of the re-ask recap of `confirm_assistance_send_node`. -/
def confirmRecapText (s : LegalState) : String :=
  "⚠️ Veuillez confirmer avec \"oui\" ou \"non\".\n\n📋 **RÉCAPITULATIF DE VOTRE DEMANDE :**\n\n📧 **Email :** "
    ++ optStr s.user_email
    ++ "\n📝 **Description :** "
    ++ optStr s.assistance_description
    ++ "\n\n✅ **Confirmez-vous l\x27envoi de cette demande à notre équipe juridique ?**\n\nRépondez par :\n- **\"oui\"** pour confirmer et envoyer\n- **\"non\"** pour annuler et modifier"

/-- `AssistanceWorkflowNodes.confirm_assistance_send_node`
(core/assistance/workflow_nodes.py). -/
def confirm_assistance_send_node (s : LegalState) : StateUpdate :=
  let user_input := lastInputLowered s.messages
  if ["oui", "yes", "ok", "confirmer"].contains user_input then
    { assistance_step := some "confirmed" }
  else if ["non", "no", "cancel", "annuler"].contains user_input then
    { assistance_step := some "cancelled"
      assistance_requested := some false
      messages := [⟨"assistant", cancelText,
                    [("assistance_step", "cancelled")]⟩] }
  else
    { assistance_step := some "confirming_send"
      messages := [⟨"assistant", confirmRecapText s,
                    [("assistance_step", "confirming_send")]⟩] }

/-- `RoutingLogic.route_after_info_collection`
(core/routing/routing_logic.py). -/
def route_after_info_collection (s : LegalState) : String :=
  let has_email := truthyOpt s.user_email
  let has_description := truthyOpt s.assistance_description
  if s.assistance_step = some "cancelled" then "cancelled"
  else if s.assistance_step = some "collecting_email" then
    if !has_email then "need_email" else "need_description"
  else if s.assistance_step = some "collecting_description" then
    if !has_description then "need_description" else "ready_to_confirm"
  else if s.assistance_step = some "confirming_send" then "ready_to_confirm"
  else
    if !has_email then "need_email"
    else if !has_description then "need_description"
    else "ready_to_confirm"

/-- Affirmative keyword list of `RoutingLogic.route_after_confirmation`. -/
def confirmYesList : List String :=
  ["oui", "yes", "ok", "confirm", "confirmer", "c\x27est bon", "d\x27accord", "envoyer", "valider"]

/-- Negative keyword list of `RoutingLogic.route_after_confirmation`. -/
def confirmNoList : List String :=
  ["non", "no", "cancel", "annuler", "pas maintenant", "arrêter", "stop", "je ne veux plus"]

/-- `RoutingLogic.route_after_confirmation`
(core/routing/routing_logic.py). -/
def route_after_confirmation (s : LegalState) : String :=
  if s.assistance_step = some "cancelled" then "cancelled"
  else if s.assistance_step = some "confirmed" then "confirmed"
  else if s.assistance_step = some "confirming_send" then
    let lm := get_last_user_message s.messages
    let user_response := if lm = "" then "" else pyStrip (pyLower lm)
    if confirmYesList.contains user_response then "confirmed"
    else if confirmNoList.contains user_response then "cancelled"
    else "needs_correction"
  else "needs_correction"

/-- Removal of the French accents occurring in the confirmation keyword
lists, reducing a character to its unaccented base letter. -/
def stripAccent (c : Char) : Char :=
  if c = 'é' ∨ c = 'è' ∨ c = 'ê' ∨ c = 'ë' then 'e'
  else if c = 'à' ∨ c = 'â' ∨ c = 'ä' then 'a'
  else if c = 'î' ∨ c = 'ï' then 'i'
  else if c = 'ô' ∨ c = 'ö' then 'o'
  else if c = 'ù' ∨ c = 'û' ∨ c = 'ü' then 'u'
  else if c = 'ç' then 'c'
  else c

/-- Accent folding of a whole string. -/
def accentFold (s : String) : String := ⟨s.data.map stripAccent⟩

/-- Modelled from the spec: the post-confirmation routing as §4.1 words
it, with the keyword comparison accent-insensitive in addition to
case-insensitive.  Used only as the comparison point for the refinement
claim about `route_after_confirmation`; the source function above is the
authority on what the code does. -/
def route_after_confirmation_spec (s : LegalState) : String :=
  if s.assistance_step = some "cancelled" then "cancelled"
  else if s.assistance_step = some "confirmed" then "confirmed"
  else if s.assistance_step = some "confirming_send" then
    let lm := get_last_user_message s.messages
    let user_response := if lm = "" then "" else pyStrip (pyLower lm)
    if confirmYesList.any (fun kw => accentFold kw == accentFold user_response) then "confirmed"
    else if confirmNoList.any (fun kw => accentFold kw == accentFold user_response) then "cancelled"
    else "needs_correction"
  else "needs_correction"

/-- `RoutingLogic.route_after_human_approval`
(core/routing/routing_logic.py): driven solely by `approval_status`. -/
def route_after_human_approval (s : LegalState) : String :=
  if s.approval_status = some "approved" then "approved"
  else if s.approval_status = some "rejected" then "rejected"
  else "interrupt"

/-- Moderator decision record produced by
`HumanApprovalNode._parse_decision`. -/
structure Decision where
  approved : Bool
  reason : String
  moderator_id : String
deriving DecidableEq

/-- Outcome of `AssistanceEmailService.send_assistance_request` as read
by `_handle_approval`: the `success` flag and the optional `error`
entry of the result dict. -/
structure EmailResult where
  success : Bool
  error : Option String := none
deriving DecidableEq

/-- Approval keyword list of `_parse_decision`. -/
def approveKeywordList : List String :=
  ["approve", "approuver", "oui", "yes", "ok", "accept"]

/-- Rejection keyword list appended in the reason-extraction loop of
`_parse_decision`. -/
def rejectKeywordList : List String :=
  ["reject", "rejeter", "non", "no"]

/-- Reason-extraction loop of `_parse_decision`: for the first keyword
present in the lowered input whose split of the original input leaves a
non-blank tail, the stripped tail; the loop continues past keywords whose
tail is blank or absent from the original casing. -/
def extractReason : List String → String → String → Option String
  | [], _, _ => none
  | kw :: rest, input, il =>
    if pyIn kw il then
      match splitAfter input.data kw.data with
      | some tail =>
        if pyStrip ⟨tail⟩ = "" then extractReason rest input il
        else some (pyStrip ⟨tail⟩)
      | none => extractReason rest input il
    else extractReason rest input il

/-- `HumanApprovalNode._parse_decision` (core/human_approval_node.py):
approval holds exactly when some approval keyword occurs as a substring
of the lowered, stripped input; any other input is not approved. -/
def parse_decision (input : String) : Decision :=
  if input.isEmpty then
    ⟨false, "Input invalide", "system"⟩
  else
    let input_lower := pyStrip (pyLower input)
    let is_approved := approveKeywordList.any (fun kw => pyIn kw input_lower)
    let r0 := pyStrip input
    let r1 := (extractReason (approveKeywordList ++ rejectKeywordList) input input_lower).getD r0
    let reason :=
      if r1 = "" ∨ r1 = input then
        if is_approved then "Approuvé par modérateur" else "Refusé par modérateur"
      else r1
    ⟨is_approved, reason, "human_moderator"⟩

/-- Presence of an approval keyword in the lowered, stripped text — the
condition `_parse_decision` uses to decide approval. -/
def containsApprovalKeyword (input : String) : Bool :=
  approveKeywordList.any (fun kw => pyIn kw (pyStrip (pyLower input)))

/-- `HumanApprovalNode._get_country_display`
(core/human_approval_node.py). -/
def get_country_display (s : LegalState) : String :=
  let c0 := orDefault s.country s.detected_country
  let c1 :=
    if c0 = "unknown" ∧ truthyOpt s.assistance_description then
      detect_country (optStr s.assistance_description)
    else c0
  if c1 = "benin" then "Bénin"
  else if c1 = "madagascar" then "Madagascar"
  else "Non spécifié"

/-- `HumanApprovalNode._format_approval_request`
(core/human_approval_node.py). -/
def format_approval_request (s : LegalState) : String :=
  "\n🔒 **APPROBATION HUMAINE REQUISE**\n\n📧 **Email:** "
    ++ optStr s.user_email
    ++ "\n🌍 **Pays:** "
    ++ get_country_display s
    ++ "\n📝 **Description:** "
    ++ optStr s.assistance_description
    ++ "\n🔍 **Requête initiale:** "
    ++ orDefault s.last_search_query "Non spécifiée"
    ++ "\n\n**Instructions:**\n- Tapez \"approve [raison]\" pour approuver\n- Tapez \"reject [raison]\" pour rejeter\n\n**Exemples:**\n- \"approve Demande légitime\"\n- \"reject Email invalide\"\n"

/-- Payload passed to `interrupt(...)` by `process_approval`. -/
structure InterruptPayload where
  user_email : String
  country : String
  description : String
  message : String
deriving DecidableEq

/-- What `HumanApprovalNode.process_approval` does before any moderator
input exists: either an error delta routed to the response node, or a
request to suspend carrying the interrupt payload. -/
inductive ApprovalEntry where
  | errorResponse (u : StateUpdate)
  | requestSuspension (p : InterruptPayload)
deriving DecidableEq

/-- Does the entry outcome request a suspension? -/
def requestsSuspension : ApprovalEntry → Bool
  | .requestSuspension _ => true
  | .errorResponse _ => false

/-- Error delta of the missing-fields branch of `process_approval`. -/
def incompleteDataUpdate : StateUpdate :=
  { messages := [⟨"assistant", "❌ Données incomplètes pour l\x27approbation.", []⟩] }

/-- Entry phase of `HumanApprovalNode.process_approval`
(core/human_approval_node.py, lines 16–49): validate the required
fields, then either route to the response node without suspending, or
trigger the interrupt. -/
def process_approval_entry (s : LegalState) : ApprovalEntry :=
  if !truthyOpt s.user_email || !truthyOpt s.assistance_description then
    .errorResponse incompleteDataUpdate
  else
    .requestSuspension
      ⟨optStr s.user_email, get_country_display s,
       optStr s.assistance_description, format_approval_request s⟩

/-- Success message of `_handle_approval`. -/
def approvalSuccessText (s : LegalState) (d : Decision) : String :=
  "✅ **DEMANDE APPROUVÉE ET ENVOYÉE**\n\n📧 Un email de confirmation a été envoyé à: "
    ++ optStr s.user_email
    ++ "\n👨‍⚖️ Notre équipe juridique vous contactera sous 24-48 heures.\n\n**Raison de l\x27approbation:** "
    ++ d.reason
    ++ "\n**Approuvé par:** "
    ++ d.moderator_id
    ++ "\n"

/-- Failure message of `_handle_approval` (approval kept, delivery error
reported). -/
def approvalFailureText (er : EmailResult) : String :=
  "⚠️ **DEMANDE APPROUVÉE MAIS ERREUR D\x27ENVOI**\n\nLa demande a été approuvée mais l\x27envoi d\x27email a échoué.\n**Erreur:** "
    ++ er.error.getD "Unknown"
    ++ "\n\nVeuillez contacter directement: fitahiana@acfai.org\n"

/-- `HumanApprovalNode._handle_approval` (core/human_approval_node.py):
the notifier result `er` is folded into the delta; `ts` stands for
`datetime.now().isoformat()`. -/
def handle_approval (s : LegalState) (d : Decision) (er : EmailResult) (ts : String) : StateUpdate :=
  { approval_status := some "approved"
    approval_reason := some d.reason
    approved_by := some d.moderator_id
    approval_timestamp := some ts
    email_status := some (if er.success then "sent" else "error")
    messages := [⟨"assistant",
                  if er.success then approvalSuccessText s d else approvalFailureText er,
                  [("approval", "approved")]⟩] }

/-- Rejection message of `_handle_rejection`. -/
def rejectionText (d : Decision) : String :=
  "❌ **DEMANDE REFUSÉE**\n\nVotre demande d\x27assistance n\x27a pas été approuvée.\n\n**Raison:** "
    ++ d.reason
    ++ "\n\nSi vous pensez qu\x27il s\x27agit d\x27une erreur, veuillez reformuler votre demande avec plus de détails.\n"

/-- `HumanApprovalNode._handle_rejection` (core/human_approval_node.py). -/
def handle_rejection (_s : LegalState) (d : Decision) (ts : String) : StateUpdate :=
  { approval_status := some "rejected"
    approval_reason := some d.reason
    approved_by := some d.moderator_id
    approval_timestamp := some ts
    messages := [⟨"assistant", rejectionText d, [("approval", "rejected")]⟩] }

/-- Resume phase of `process_approval`: the moderator input returned by
the interrupt is parsed and dispatched to `_handle_approval` or
`_handle_rejection`. -/
def resume_approval (s : LegalState) (input : String) (er : EmailResult) (ts : String) : StateUpdate :=
  let d := parse_decision input
  if d.approved then handle_approval s d er ts else handle_rejection s d ts

/-- Content of the first message of a delta, `""` when there is none. -/
def headContent (msgs : List Msg) : String :=
  match msgs.head? with
  | none => ""
  | some m => m.content

/-- In-memory side of `LegalChatManager`: the keys of its
`pending_interrupts` dict.  This cache lives only in the process. -/
structure ChatManagerMem where
  pending_interrupts : List String
deriving DecidableEq

/-- How `LegalChatManager.chat` treats an incoming send: as the resume
payload of a pending interrupt, or as a fresh message through the
graph. -/
inductive SendRoute where
  | resumePending
  | freshRoute
deriving DecidableEq

/-- The dispatch at the top of `LegalChatManager.chat`
(core/chat_manager.py, line 40): resume exactly when the session id is a
key of the in-memory `pending_interrupts` dict. -/
def chat_route (mem : ChatManagerMem) (session_id : String) : SendRoute :=
  if mem.pending_interrupts.contains session_id then .resumePending
  else .freshRoute

/-- The durably persisted checkpoint snapshot of a conversation as read
back by `graph.aget_state`: `next` is the list of nodes the graph is
paused before. -/
structure StateSnapshot where
  next : List String
deriving DecidableEq

/-- A snapshot records a suspension exactly when `next` is non-empty —
the very test `chat` uses after an invoke to detect an interrupt. -/
def snapshot_suspended (snap : StateSnapshot) : Bool := !snap.next.isEmpty

/-- Bypass condition of `RoutingNodes.router_node`
(core/nodes/routing_nodes.py, line 30): classification is skipped
whenever the step is truthy and neither cancelled nor completed; the
per-message marker plays no part in it. -/
def router_bypasses_classification (s : LegalState) : Bool :=
  match s.assistance_step with
  | none => false
  | some st => !st.isEmpty && !(st == "cancelled") && !(st == "completed")

/-- `GraphBuilder._has_new_user_input` (core/graph_builder.py, lines
213–234): the latest message counts as new input when it is a user
message whose `processed_in_assistance_step` meta entry differs from the
current step. -/
def has_new_user_input (s : LegalState) : Bool :=
  match s.messages.getLast? with
  | none => false
  | some m =>
    m.role == "user"
      && !(List.lookup "processed_in_assistance_step" m.meta == s.assistance_step)

lemma leadsWith_append (nd l b : List Char) (h : leadsWith l nd = true) :
    leadsWith (l ++ b) nd = true := by
  induction nd generalizing l with
  | nil => cases l <;> simp [leadsWith]
  | cons c cs ih =>
    cases l with
    | nil => simp [leadsWith] at h
    | cons a as =>
      simp only [List.cons_append, leadsWith, Bool.and_eq_true] at h ⊢
      exact ⟨h.1, ih as h.2⟩

lemma hasSub_nil_right (l : List Char) : hasSub l [] = true := by
  cases l <;> simp [hasSub, leadsWith]

lemma hasSub_append_right (nd l b : List Char) (h : hasSub l nd = true) :
    hasSub (l ++ b) nd = true := by
  induction l with
  | nil =>
    simp only [hasSub, List.isEmpty_iff] at h
    subst h
    simp [hasSub_nil_right]
  | cons a t ih =>
    simp only [hasSub, Bool.or_eq_true] at h
    rcases h with h | h
    · have := leadsWith_append nd (a :: t) b h
      simp only [List.cons_append] at this ⊢
      simp [hasSub, this]
    · simp only [List.cons_append, hasSub, Bool.or_eq_true]
      exact Or.inr (ih h)

lemma pyIn_append_right (nd a x : String) (h : pyIn nd a = true) :
    pyIn nd (a ++ x) = true := by
  unfold pyIn at h ⊢
  have hd : (a ++ x).data = a.data ++ x.data := rfl
  rw [hd]
  exact hasSub_append_right _ _ _ h

lemma parse_decision_approved (input : String) :
    (parse_decision input).approved = containsApprovalKeyword input := by
  unfold parse_decision containsApprovalKeyword
  by_cases h : input.isEmpty
  · have he : input = "" := (String.isEmpty_iff _).mp h
    subst he
    simp [h]
    decide
  · simp [h]

/-- C10: `detect_country` is a total function into
{benin, madagascar, unknown}; empty input and tied keyword scores give
unknown; a country is returned exactly when its score is strictly larger
than the other and strictly positive. -/
theorem c10_detect_country_total (t : String) :
    (detect_country t = "benin" ∨ detect_country t = "madagascar" ∨ detect_country t = "unknown")
    ∧ (t = "" → detect_country t = "unknown")
    ∧ (benin_score t = madagascar_score t → detect_country t = "unknown")
    ∧ (detect_country t = "benin" ↔
        (t ≠ "" ∧ madagascar_score t < benin_score t ∧ 0 < benin_score t))
    ∧ (detect_country t = "madagascar" ↔
        (t ≠ "" ∧ benin_score t < madagascar_score t ∧ 0 < madagascar_score t)) := by
  unfold detect_country
  by_cases h : t = ""
  · rw [if_pos h]
    refine ⟨Or.inr (Or.inr rfl), fun _ => rfl, fun _ => rfl, ?_, ?_⟩
    · constructor
      · intro hh; exact absurd hh (by decide)
      · rintro ⟨hne, -, -⟩; exact absurd h hne
    · constructor
      · intro hh; exact absurd hh (by decide)
      · rintro ⟨hne, -, -⟩; exact absurd h hne
  · rw [if_neg h]
    by_cases h1 : benin_score t > madagascar_score t ∧ benin_score t > 0
    · rw [if_pos h1]
      refine ⟨Or.inl rfl, fun hh => absurd hh h, fun hh => ?_, ?_, ?_⟩
      · exact absurd hh (by omega)
      · exact ⟨fun _ => ⟨h, h1.1, h1.2⟩, fun _ => rfl⟩
      · constructor
        · intro hh; exact absurd hh (by decide)
        · rintro ⟨-, hlt, -⟩; exact absurd hlt (by omega)
    · rw [if_neg h1]
      by_cases h2 : madagascar_score t > benin_score t ∧ madagascar_score t > 0
      · rw [if_pos h2]
        refine ⟨Or.inr (Or.inl rfl), fun hh => absurd hh h, fun hh => ?_, ?_, ?_⟩
        · exact absurd hh (by omega)
        · constructor
          · intro hh; exact absurd hh (by decide)
          · rintro ⟨-, hlt, -⟩; exact absurd hlt (by omega)
        · exact ⟨fun _ => ⟨h, h2.1, h2.2⟩, fun _ => rfl⟩
      · rw [if_neg h2]
        refine ⟨Or.inr (Or.inr rfl), fun _ => rfl, fun _ => rfl, ?_, ?_⟩
        · constructor
          · intro hh; exact absurd hh (by decide)
          · rintro ⟨-, hlt, hpos⟩; exact absurd ⟨hlt, by omega⟩ h1
        · constructor
          · intro hh; exact absurd hh (by decide)
          · rintro ⟨-, hlt, hpos⟩; exact absurd ⟨hlt, by omega⟩ h2

/-- C10 witness: the theorem evaluated at concrete inputs — empty text
gives unknown, a Benin keyword gives benin. -/
theorem c10_detect_country_total_witness :
    detect_country "" = "unknown" ∧ detect_country "divorce à cotonou" = "benin" :=
  ⟨(c10_detect_country_total "").2.1 rfl,
   (c10_detect_country_total "divorce à cotonou").2.2.2.1.mpr (by decide)⟩

/-- C6: once `user_email` is truthy (set and non-empty, hence in
particular once it is set and valid), `route_after_info_collection`
never returns `need_email`; it only routes to description collection,
confirmation, or cancellation. -/
theorem c6_email_monotonic (s : LegalState) (h : truthyOpt s.user_email = true) :
    route_after_info_collection s ≠ "need_email"
    ∧ (route_after_info_collection s = "need_description"
       ∨ route_after_info_collection s = "ready_to_confirm"
       ∨ route_after_info_collection s = "cancelled") := by
  unfold route_after_info_collection
  cases hd : truthyOpt s.assistance_description <;>
    split_ifs <;> first | exact ⟨by decide, by decide⟩ | simp_all

/-- C6 witness: a state with a collected email, outside any explicit
step, routes to description collection and not back to `need_email`. -/
theorem c6_email_monotonic_witness :
    route_after_info_collection { user_email := some ("a@b.com") } ≠ "need_email" :=
  (c6_email_monotonic { user_email := some ("a@b.com") } (by decide)).1

/-- C7: at the description-collection step, any latest-message content
whose stripped length is below the minimum of 10 leaves the returned
delta equal to the re-ask delta: the step stays
`collecting_description` and no other state field is touched (the
explanatory re-prompt is generated downstream by the response node). -/
theorem c7_short_description_no_advance (s : LegalState)
    (h1 : s.assistance_step = some ("collecting_description"))
    (h2 : (pyStrip (lastContent s.messages)).length < 10) :
    collect_assistance_info_node s = { assistance_step := some ("collecting_description") } := by
  unfold collect_assistance_info_node
  split_ifs <;> simp_all

/-- C7 witness: the seven-character description `divorce` does not
advance the step. -/
theorem c7_short_description_witness :
    collect_assistance_info_node
        { messages := [⟨"user", "divorce", []⟩],
          assistance_step := some ("collecting_description") }
      = { assistance_step := some ("collecting_description") } :=
  c7_short_description_no_advance
    { messages := [⟨"user", "divorce", []⟩],
      assistance_step := some ("collecting_description") }
    rfl (by decide)

/-- C8: the approval entry requests a suspension exactly when both
required fields are truthy; when either is missing it returns the
incomplete-data error delta routed to the response node, never
suspending. -/
theorem c8_approval_guard (s : LegalState) :
    requestsSuspension (process_approval_entry s)
        = (truthyOpt s.user_email && truthyOpt s.assistance_description)
    ∧ ((truthyOpt s.user_email && truthyOpt s.assistance_description) = false →
        process_approval_entry s = .errorResponse incompleteDataUpdate) := by
  unfold process_approval_entry
  cases he : truthyOpt s.user_email <;>
    cases hd : truthyOpt s.assistance_description <;>
      simp [requestsSuspension]

/-- C8 witness: a state with an email but no description takes the
error branch without suspension. -/
theorem c8_approval_guard_witness :
    process_approval_entry { user_email := some ("a@b.com") }
      = ApprovalEntry.errorResponse incompleteDataUpdate :=
  (c8_approval_guard { user_email := some ("a@b.com") }).2 (by decide)

/-- C9: whatever the notifier outcome, `_handle_approval` records the
status as approved; the email status tracks delivery, and a delivery
failure is reported in the response text (which carries the
ERREUR D ENVOI marker) without changing the approved outcome. -/
theorem c9_approval_decoupled (s : LegalState) (d : Decision) (er : EmailResult) (ts : String) :
    (handle_approval s d er ts).approval_status = some ("approved")
    ∧ (handle_approval s d er ts).email_status
        = some (if er.success then "sent" else "error")
    ∧ (er.success = false →
        pyIn ("ERREUR D\x27ENVOI") (headContent (handle_approval s d er ts).messages) = true) := by
  refine ⟨rfl, rfl, ?_⟩
  intro hf
  simp only [handle_approval, headContent, hf, if_false, Bool.false_eq_true, List.head?]
  unfold approvalFailureText
  exact pyIn_append_right _ _ _
    (pyIn_append_right _ _ _ (by decide))

/-- C9 witness: a failed delivery still yields an approved status, and
the failure marker appears in the response text. -/
theorem c9_approval_decoupled_witness :
    (handle_approval {} ⟨true, "raison valable", "mod-1"⟩ ⟨false, some ("smtp down")⟩ "t0").approval_status
        = some ("approved")
    ∧ pyIn ("ERREUR D\x27ENVOI")
        (headContent (handle_approval {} ⟨true, "raison valable", "mod-1"⟩ ⟨false, some ("smtp down")⟩ "t0").messages)
        = true :=
  ⟨(c9_approval_decoupled {} ⟨true, "raison valable", "mod-1"⟩ ⟨false, some ("smtp down")⟩ "t0").1,
   (c9_approval_decoupled {} ⟨true, "raison valable", "mod-1"⟩ ⟨false, some ("smtp down")⟩ "t0").2.2 rfl⟩

/-- C1 counterexample: it is not true that a persisted suspension alone
makes the next send resume — with an empty in-memory cache (as after a
process restart) the send is routed as a fresh message even though the
persisted snapshot records the pause before the approval node. -/
theorem c1_persisted_suspension_ignored :
    ¬ (∀ (mem : ChatManagerMem) (store : String → StateSnapshot) (sid : String),
        snapshot_suspended (store sid) = true →
        chat_route mem sid = SendRoute.resumePending) := by
  intro h
  have hc := h ⟨[]⟩ (fun _ => ⟨["human_approval"]⟩) "conv-1" (by decide)
  exact absurd hc (by decide)

/-- C1 (amended): the resume-vs-fresh dispatch of `chat` is determined
solely by membership of the session id in the in-memory
`pending_interrupts` cache; in particular an empty cache always routes
fresh, whatever the durable store says. -/
theorem c1_resume_decided_by_cache (mem : ChatManagerMem) (sid : String) :
    (chat_route mem sid = SendRoute.resumePending
      ↔ mem.pending_interrupts.contains sid = true)
    ∧ chat_route ⟨[]⟩ sid = SendRoute.freshRoute := by
  constructor
  · unfold chat_route
    by_cases h : mem.pending_interrupts.contains sid = true
    · simp [h]
    · simp [h]
  · rfl

/-- C1 witness: the amended dispatch evaluated at a cached session. -/
theorem c1_resume_decided_by_cache_witness :
    chat_route ⟨["conv-7"]⟩ "conv-7" = SendRoute.resumePending :=
  (c1_resume_decided_by_cache ⟨["conv-7"]⟩ "conv-7").1.mpr (by decide)

/-- State of a suspended conversation used for the C2 counterexample. -/
def c2_state : LegalState :=
  { messages := [⟨"user", "maybe", []⟩]
    user_email := some ("alice@example.com")
    assistance_description := some ("Je veux une consultation juridique pour un divorce")
    assistance_step := some ("confirmed") }

/-- C2 counterexample: the resume text `maybe` contains neither an
approval nor a rejection keyword, yet the decision parses as not
approved and the run is treated as a rejection — the post-approval
router returns `rejected`, not the await-decision `interrupt`
destination the claim requires. -/
theorem c2_neither_keyword_rejected :
    parse_decision "maybe" = ⟨false, "Refusé par modérateur", "human_moderator"⟩
    ∧ (applyUpdate c2_state (resume_approval c2_state "maybe" ⟨true, none⟩ "t0")).approval_status
        = some ("rejected")
    ∧ route_after_human_approval
        (applyUpdate c2_state (resume_approval c2_state "maybe" ⟨true, none⟩ "t0"))
        = "rejected" := by
  decide

/-- C2 (amended): text containing an approval keyword parses as
approved; text containing no approval keyword — including text with
neither keyword — parses as not approved and resuming with it records a
rejected status, after which the router returns `rejected` (the
`interrupt` destination is reserved for a status that is neither
approved nor rejected). -/
theorem c2_approval_keyword_decides (s : LegalState) (input : String)
    (er : EmailResult) (ts : String) :
    (containsApprovalKeyword input = true → (parse_decision input).approved = true)
    ∧ (containsApprovalKeyword input = false →
        (parse_decision input).approved = false
        ∧ (applyUpdate s (resume_approval s input er ts)).approval_status = some ("rejected")
        ∧ route_after_human_approval (applyUpdate s (resume_approval s input er ts))
            = "rejected") := by
  have hp := parse_decision_approved input
  constructor
  · intro h
    rw [hp, h]
  · intro h
    have ha : (parse_decision input).approved = false := by rw [hp, h]
    have h2 : resume_approval s input er ts = handle_rejection s (parse_decision input) ts := by
      simp [resume_approval, ha]
    refine ⟨ha, ?_, ?_⟩
    · rw [h2]; rfl
    · rw [h2]
      simp [route_after_human_approval, applyUpdate, handle_rejection, Option.or]

/-- C2 witness: an approval text parses approved; a keyword-free text
leads to the rejected route. -/
theorem c2_approval_keyword_decides_witness :
    (parse_decision "approve Demande légitime").approved = true
    ∧ route_after_human_approval
        (applyUpdate c2_state (resume_approval c2_state "hmm je ne sais pas" ⟨true, none⟩ "t1"))
        = "rejected" :=
  ⟨(c2_approval_keyword_decides c2_state "approve Demande légitime" ⟨true, none⟩ "t1").1 (by decide),
   ((c2_approval_keyword_decides c2_state "hmm je ne sais pas" ⟨true, none⟩ "t1").2 (by decide)).2.2⟩

/-- State at the confirmation step whose latest user message is the
unaccented `arreter`, used for the C4 counterexample. -/
def c4_state : LegalState :=
  { messages := [⟨"user", "arreter", []⟩]
    assistance_step := some ("confirming_send") }

/-- C4 counterexample: the keyword matching is not accent-insensitive —
the unaccented negative keyword `arreter` is routed to
`needs_correction` by the code, while the accent-insensitive routing the
claim describes would match `arrêter` and cancel. -/
theorem c4_accent_sensitivity_gap :
    route_after_confirmation c4_state = "needs_correction"
    ∧ route_after_confirmation_spec c4_state = "cancelled" := by
  decide

lemma route_after_confirmation_confirming (s : LegalState)
    (h : s.assistance_step = some ("confirming_send")) :
    route_after_confirmation s =
      (if confirmYesList.contains (pyStrip (pyLower (get_last_user_message s.messages)))
       then "confirmed"
       else if confirmNoList.contains (pyStrip (pyLower (get_last_user_message s.messages)))
       then "cancelled"
       else "needs_correction") := by
  unfold route_after_confirmation
  rw [h]
  rw [if_neg (by decide), if_neg (by decide), if_pos rfl]
  by_cases hlm : get_last_user_message s.messages = ""
  · simp only [hlm]
    decide
  · simp only [if_neg hlm]

/-- C4 (amended): after the confirmation step the routing compares the
lowercased, stripped latest user message for exact membership of the
keyword lists — case-insensitively but accent-sensitively; it returns
`confirmed` exactly on an affirmative match, and any message matching
neither list is routed to `needs_correction`, never treated as an
affirmative. -/
theorem c4_confirmation_case_insensitive (s : LegalState)
    (h : s.assistance_step = some ("confirming_send")) :
    (route_after_confirmation s = "confirmed"
      ↔ confirmYesList.contains (pyStrip (pyLower (get_last_user_message s.messages))) = true)
    ∧ (confirmYesList.contains (pyStrip (pyLower (get_last_user_message s.messages))) = false →
       confirmNoList.contains (pyStrip (pyLower (get_last_user_message s.messages))) = false →
       route_after_confirmation s = "needs_correction") := by
  have hv := route_after_confirmation_confirming s h
  cases hy : confirmYesList.contains (pyStrip (pyLower (get_last_user_message s.messages))) with
  | true =>
    have hr : route_after_confirmation s = "confirmed" := by rw [hv, if_pos hy]
    refine ⟨⟨fun _ => rfl, fun _ => hr⟩, ?_⟩
    intro h1 _
    exact absurd h1 (by decide)
  | false =>
    have hyn : ¬(confirmYesList.contains (pyStrip (pyLower (get_last_user_message s.messages))) = true) := by
      rw [hy]
      decide
    cases hn : confirmNoList.contains (pyStrip (pyLower (get_last_user_message s.messages))) with
    | true =>
      have hr : route_after_confirmation s = "cancelled" := by rw [hv, if_neg hyn, if_pos hn]
      refine ⟨⟨?_, ?_⟩, ?_⟩
      · intro hc
        rw [hr] at hc
        exact absurd hc (by decide)
      · intro hc
        exact absurd hc (by decide)
      · intro _ h2
        exact absurd h2 (by decide)
    | false =>
      have hnn : ¬(confirmNoList.contains (pyStrip (pyLower (get_last_user_message s.messages))) = true) := by
        rw [hn]
        decide
      have hr : route_after_confirmation s = "needs_correction" := by
        rw [hv, if_neg hyn, if_neg hnn]
      refine ⟨⟨?_, ?_⟩, fun _ _ => hr⟩
      · intro hc
        rw [hr] at hc
        exact absurd hc (by decide)
      · intro hc
        exact absurd hc (by decide)

/-- C4 witness: the uppercase affirmative `OUI` is matched
case-insensitively and confirmed. -/
theorem c4_confirmation_case_insensitive_witness :
    route_after_confirmation
        { messages := [⟨"user", "OUI", []⟩], assistance_step := some ("confirming_send") }
      = "confirmed" :=
  (c4_confirmation_case_insensitive
      { messages := [⟨"user", "OUI", []⟩], assistance_step := some ("confirming_send") }
      rfl).1.mpr (by decide)

/-- Confirmation-step state with collected fields and the reply `non`,
used for the C5 counterexample and witness. -/
def c5_state : LegalState :=
  { messages := [⟨"assistant", "récapitulatif", []⟩, ⟨"user", "non", []⟩]
    user_email := some ("alice@example.com")
    assistance_description := some ("Je souhaite une aide pour un divorce au Bénin")
    assistance_step := some ("confirming_send") }

/-- C5 counterexample: replying `non` at the confirmation step cancels
the workflow but the collected fields are retained, not cleared — the
merged state still carries the email and the description. -/
theorem c5_fields_not_cleared :
    (applyUpdate c5_state (confirm_assistance_send_node c5_state)).assistance_step
        = some ("cancelled")
    ∧ (applyUpdate c5_state (confirm_assistance_send_node c5_state)).user_email
        = some ("alice@example.com")
    ∧ (applyUpdate c5_state (confirm_assistance_send_node c5_state)).assistance_description
        = some ("Je souhaite une aide pour un divorce au Bénin") := by
  decide

/-- C5 (amended): a lowercased, stripped latest message equal to `non`
moves the step to cancelled and switches `assistance_requested` off, the
collected fields are left untouched (retained, not cleared), and the
post-confirmation router sends the run to `cancelled` — so the
human-approval node, the only source of suspensions, is never entered in
that run. -/
theorem c5_cancel_no_suspension (s : LegalState)
    (h : lastInputLowered s.messages = "non") :
    (confirm_assistance_send_node s).user_email = none
    ∧ (confirm_assistance_send_node s).assistance_description = none
    ∧ (applyUpdate s (confirm_assistance_send_node s)).assistance_step = some ("cancelled")
    ∧ (applyUpdate s (confirm_assistance_send_node s)).assistance_requested = false
    ∧ (applyUpdate s (confirm_assistance_send_node s)).user_email = s.user_email
    ∧ (applyUpdate s (confirm_assistance_send_node s)).assistance_description
        = s.assistance_description
    ∧ route_after_confirmation (applyUpdate s (confirm_assistance_send_node s))
        = "cancelled" := by
  have hn : confirm_assistance_send_node s =
      { assistance_step := some ("cancelled")
        assistance_requested := some false
        messages := [⟨"assistant", cancelText, [("assistance_step", "cancelled")]⟩] } := by
    unfold confirm_assistance_send_node
    rw [h]
    rw [if_neg (by decide), if_pos (by decide)]
  rw [hn]
  refine ⟨rfl, rfl, rfl, rfl, rfl, rfl, ?_⟩
  have h3 : (applyUpdate s
      { assistance_step := some ("cancelled")
        assistance_requested := some false
        messages := [⟨"assistant", cancelText, [("assistance_step", "cancelled")]⟩] }).assistance_step
      = some ("cancelled") := rfl
  simp [route_after_confirmation, h3]

/-- C5 witness: the amended theorem evaluated on the concrete
confirmation-step state. -/
theorem c5_cancel_no_suspension_witness :
    route_after_confirmation (applyUpdate c5_state (confirm_assistance_send_node c5_state))
      = "cancelled" :=
  (c5_cancel_no_suspension c5_state (by decide)).2.2.2.2.2.2

/-- Conversation at the email-collection step whose latest user message
is the address being consumed, used for the C3 bug exhibit. -/
def c3_state : LegalState :=
  { messages := [⟨"user", "alice@example.com", []⟩]
    assistance_step := some ("collecting_email") }

/-- C3: the repository never writes the `processed_in_assistance_step`
marker that `_has_new_user_input` reads — after
`collect_assistance_info_node` consumes the email message, the merged
state still reports that very message as new input for the next step,
and the router bypass fires on the in-progress step even when the
marker is (hypothetically) set to the current step. -/
theorem c3_consumed_message_never_marked :
    (collect_assistance_info_node c3_state).user_email = some ("alice@example.com")
    ∧ (applyUpdate c3_state (collect_assistance_info_node c3_state)).assistance_step
        = some ("collecting_description")
    ∧ has_new_user_input (applyUpdate c3_state (collect_assistance_info_node c3_state)) = true
    ∧ router_bypasses_classification (applyUpdate c3_state (collect_assistance_info_node c3_state))
        = true
    ∧ router_bypasses_classification
        { c3_state with
          messages := [⟨"user", "alice@example.com",
                        [("processed_in_assistance_step", "collecting_email")]⟩] }
        = true := by
  decide
